import Mathlib

/-!
# Verification of the KZT-Rate-Watcher pipeline

Shallow embedding of `src/parser_script.py`: a daily script that fetches the
National Bank exchange-rate XML feed, parses it into a metadata record plus a
list of rate records, and (conditionally) saves a JSON snapshot.

Modelling conventions:
* `item.find(tag)` returns an element or `None`, and `.text` of an element is
  an optional string, so an XML field is `Option (Option String)`:
  `none` = tag absent, `some none` = tag present with empty text,
  `some (some s)` = tag present with text `s`.
* A Python expression that raises an exception caught by the enclosing broad
  `except` is modelled by returning `none` from the corresponding stage; the
  caller's `except Exception` handler turns any such `none` into the
  `(None, None)` result, exactly as in the source.
* `float()` / `int()` are modelled on their decimal fragment (optional sign,
  digits, at most one decimal point), returning exact rationals; only parse
  success/failure and the sign of the value matter to the claims.
* The HTTP fetch is a parameter: `Except TransportError FetchedContent`,
  where `FetchedContent.malformed` is a payload `ET.fromstring` rejects.
-/

namespace RateWatcher

/-! ## String helpers: Python's `in` (substring) test -/

/-- Is `pre` a prefix of the second list?  (Char-by-char comparison.) -/
def listPre : List Char → List Char → Bool
  | [], _ => true
  | _ :: _, [] => false
  | a :: as, b :: bs => a == b && listPre as bs

/-- Is `needle` a contiguous sublist of the second list?
Embeds Python's `needle in hay` substring test. -/
def listSub (needle : List Char) : List Char → Bool
  | [] => needle.isEmpty
  | b :: bs => listPre needle (b :: bs) || listSub needle bs

/-- The locale-specific "no information available" marker tested by the
source at lines 71 and 103 (`"информации нет"`). -/
def noInfoMarker : String := "информации нет"

/-- The test `noInfoMarker in s` as written in the Python source. -/
def containsMarker (s : String) : Bool :=
  listSub noInfoMarker.toList s.toList

/-! ## Numeric parsing: model of Python `float()` and `int()` -/

/-- Python's numeric constructors strip surrounding whitespace before
parsing: drop whitespace from both ends of the character list. -/
def pyStrip (cs : List Char) : List Char :=
  ((cs.dropWhile Char.isWhitespace).reverse.dropWhile Char.isWhitespace).reverse

/-- Leading-sign split: `-` gives negative, `+` is accepted, anything else
is an unsigned body. -/
def parseSign : List Char → Bool × List Char
  | '-' :: rest => (true, rest)
  | '+' :: rest => (false, rest)
  | cs => (false, cs)

/-- Scan a run of decimal digits with at most one decimal point.
Returns the digits read as an integer together with the number of digits
after the point; fails if a foreign character appears or no digit was read.
Arguments: remaining input, accumulator, fraction-digit count, whether the
point was seen, whether any digit was seen. -/
def scanMantissa : List Char → Nat → Nat → Bool → Bool → Option (Nat × Nat)
  | [], acc, frac, _, seenDigit => if seenDigit then some (acc, frac) else none
  | c :: rest, acc, frac, seenDot, seenDigit =>
    if c.isDigit then
      scanMantissa rest (acc * 10 + (c.toNat - 48))
        (if seenDot then frac + 1 else frac) seenDot true
    else if c == '.' && !seenDot then
      scanMantissa rest acc frac true seenDigit
    else none

/-- Model of the decimal fragment of Python's `float()`: surrounding
whitespace stripped, optional sign, digits with at most one decimal point.
Returns the exact rational value (IEEE-754 rounding is not modelled; only
parse success/failure and sign matter to the claims below). -/
def parseFloat? (s : String) : Option Rat :=
  let (neg, cs) := parseSign (pyStrip s.toList)
  match scanMantissa cs 0 0 false false with
  | none => none
  | some (m, frac) =>
    let q : Rat := mkRat (m : Int) (10 ^ frac)
    some (if neg then -q else q)

/-- Scan a run of decimal digits (no point). -/
def scanDigits : List Char → Nat → Bool → Option Nat
  | [], acc, seen => if seen then some acc else none
  | c :: rest, acc, _ =>
    if c.isDigit then scanDigits rest (acc * 10 + (c.toNat - 48)) true
    else none

/-- Model of the decimal fragment of Python's `int()`: surrounding
whitespace stripped, optional sign, decimal digits only. -/
def parseInt? (s : String) : Option Int :=
  let (neg, cs) := parseSign (pyStrip s.toList)
  match scanDigits cs 0 false with
  | none => none
  | some n => some (if neg then -(n : Int) else (n : Int))

/-! ## Data model -/

/-- One `<item>` element of the feed.  Each field is
`none` (tag absent) / `some none` (tag with empty text) /
`some (some s)` (tag with text `s`). -/
structure XmlItem where
  fullname : Option (Option String)
  title : Option (Option String)
  description : Option (Option String)
  quant : Option (Option String)
  index : Option (Option String)
  change : Option (Option String)
deriving DecidableEq, Repr

/-- The top-level feed document as seen through `root.find` /
`root.findall('item')`. -/
structure XmlRoot where
  date : Option (Option String)
  title : Option (Option String)
  generator : Option (Option String)
  link : Option (Option String)
  description : Option (Option String)
  copyright : Option (Option String)
  info : Option (Option String)
  items : List XmlItem
deriving DecidableEq, Repr

/-- One parsed rate record (`rate_data` dict at lines 77–86). -/
structure RateRecord where
  fullname : Option String
  code : Option String
  rate : Rat
  quant : Int
  index : Option String
  change : Rat
deriving DecidableEq, Repr

/-- The `metadata` dict built at lines 60–68. -/
structure FeedMetadata where
  date : Option String
  title : Option String
  generator : Option String
  link : Option String
  description : Option String
  copyright : Option String
  retrieved_at : String
deriving DecidableEq, Repr

/-- Transport-layer failure of `requests.get` / `raise_for_status`
(`requests.exceptions.RequestException`, lines 47–52). -/
inductive TransportError where
  | timeout
  | connectionError
  | httpStatus (code : Nat)
deriving DecidableEq, Repr

/-- The body of a 2xx response: either malformed XML (rejected by
`ET.fromstring`, line 56/92) or a well-formed document. -/
inductive FetchedContent where
  | malformed
  | wellFormed (root : XmlRoot)
deriving DecidableEq, Repr

/-- The `timeout=15` argument of `requests.get` at line 48. -/
def request_timeout_seconds : Nat := 15

/-! ## The parser -/

/-- Processing of a single `<item>` (the dict literal at lines 77–86,
evaluated in source order: fullname, code, rate, quant, index, change).
`none` means a `ValueError`/`TypeError`/`AttributeError` was raised —
which, in the source, propagates out of the `for` loop and aborts the
whole parse. -/
def processItem (it : XmlItem) : Option RateRecord :=
  match it.fullname with
  | none => none
  | some fn =>
    match it.title with
    | none => none
    | some code =>
      match it.description with
      | none => none
      | some none => none
      | some (some ds) =>
        match parseFloat? ds with
        | none => none
        | some rate =>
          match it.quant with
          | none => none
          | some none => none
          | some (some qs) =>
            match parseInt? qs with
            | none => none
            | some q =>
              let idx : Option String :=
                match it.index with
                | none => some "NONE"
                | some t => t
              match it.change with
              | none => none
              | some none =>
                some { fullname := fn, code := code, rate := rate,
                       quant := q, index := idx, change := 0 }
              | some (some cs) =>
                if cs = "" then
                  some { fullname := fn, code := code, rate := rate,
                         quant := q, index := idx, change := 0 }
                else
                  match parseFloat? cs with
                  | none => none
                  | some ch =>
                    some { fullname := fn, code := code, rate := rate,
                           quant := q, index := idx, change := ch }

/-- The `for item in root.findall('item')` loop (lines 76–87): any raised
exception aborts the whole traversal, so a single failing item yields
`none` for the entire list. -/
def parseItems : List XmlItem → Option (List RateRecord)
  | [] => some []
  | it :: rest =>
    match processItem it with
    | none => none
    | some r =>
      match parseItems rest with
      | none => none
      | some rs => some (r :: rs)

/-- The metadata dict of lines 60–68.  Only the `date` tag is guarded with
an `is not None` test; `.text` on any of the other five absent tags raises
`AttributeError`, modelled as `none`. -/
def buildMetadata (root : XmlRoot) (date_str retrieved_at : String) :
    Option FeedMetadata :=
  match root.title with
  | none => none
  | some t =>
    match root.generator with
    | none => none
    | some g =>
      match root.link with
      | none => none
      | some l =>
        match root.description with
        | none => none
        | some de =>
          match root.copyright with
          | none => none
          | some c =>
            some { date := (match root.date with
                            | none => some date_str
                            | some x => x),
                   title := t, generator := g, link := l,
                   description := de, copyright := c,
                   retrieved_at := retrieved_at }

/-- The function `fetch_and_parse_rates` (lines 37–97).  The fetch outcome is a
parameter; `retrieved_at` stands for `datetime.now().isoformat()`.
Faithful control flow: HTTP failure → `(None, None)`; malformed XML →
`(None, None)`; any exception while building the metadata or walking the
items → `(None, None)` (the broad `except` at lines 92–97); an `info` tag
containing the marker → `(metadata, [])`; an `info` tag present with empty
text raises `TypeError` on the `in` test → `(None, None)`. -/
def fetch_and_parse_rates (fetched : Except TransportError FetchedContent)
    (date_str retrieved_at : String) :
    Option FeedMetadata × Option (List RateRecord) :=
  match fetched with
  | .error _ => (none, none)
  | .ok .malformed => (none, none)
  | .ok (.wellFormed root) =>
    match buildMetadata root date_str retrieved_at with
    | none => (none, none)
    | some md =>
      match root.info with
      | some none => (none, none)
      | some (some s) =>
        if containsMarker s then (some md, some [])
        else
          match parseItems root.items with
          | none => (none, none)
          | some l => (some md, some l)
      | none =>
        match parseItems root.items with
        | none => (none, none)
        | some l => (some md, some l)

/-! ## Saving and the main pipeline -/

/-- Result of `save_rates_to_json` (lines 99–118).
`wrote` = the `open`/`json.dump` write is attempted with the given
snapshot content; `skippedNoData` = the early `return` at line 105;
`crashed` = `"информации нет" in None` raises `TypeError` at line 103,
uncaught (the function's `try` only wraps the file write). -/
inductive SaveOutcome where
  | wrote (snapshot : FeedMetadata × List RateRecord)
  | skippedNoData
  | crashed
deriving DecidableEq, Repr

/-- The function `save_rates_to_json` (lines 99–118).  The guard at line 103 is
`not rates_data and "информации нет" in metadata.get('description', '')`,
evaluated left-to-right with short-circuit: for non-empty rates the
marker test is never reached. -/
def save_rates_to_json (metadata : FeedMetadata)
    (rates_data : List RateRecord) : SaveOutcome :=
  if rates_data.isEmpty then
    match metadata.description with
    | none => SaveOutcome.crashed
    | some d =>
      if containsMarker d then SaveOutcome.skippedNoData
      else SaveOutcome.wrote (metadata, rates_data)
  else SaveOutcome.wrote (metadata, rates_data)

/-- Overall outcome of one run of the `__main__` block (lines 121–135).
`wrote` = `save_rates_to_json` attempted the file write with this content;
`skippedNoData` = its internal skip (logs failure, no write);
`crashed` = uncaught `TypeError` inside `save_rates_to_json`;
`skippedEmptyRates` = the `elif` branch at line 128 (logs success, no
write); `failed` = the `else` branch at line 134 (logs failure, no
write). -/
inductive RunOutcome where
  | wrote (snapshot : FeedMetadata × List RateRecord)
  | skippedNoData
  | crashed
  | skippedEmptyRates
  | failed
deriving DecidableEq, Repr

/-- The `__main__` block (lines 121–135) after the target date has been
chosen.  The test `if metadata and current_rates is not None` is true for a
truthy (always 7-key, hence non-empty) metadata dict and any non-`None`
rates list — including the empty list; the `elif metadata and not
current_rates` branch therefore only catches `current_rates is None`. -/
def main_run (fetched : Except TransportError FetchedContent)
    (date_str retrieved_at : String) : RunOutcome :=
  match fetch_and_parse_rates fetched date_str retrieved_at with
  | (some md, some rates) =>
    match save_rates_to_json md rates with
    | .wrote s => .wrote s
    | .skippedNoData => .skippedNoData
    | .crashed => .crashed
  | (some _, none) => .skippedEmptyRates
  | (none, _) => .failed

/-! ## The date selector

`get_target_date` (lines 21–35) is `datetime.now() + timedelta(days=1)`
formatted with `strftime("%d.%m.%Y")`.  The `datetime` library is
external; its Gregorian day arithmetic is modelled here by `nextDay`, and
`toOrdinal` (days since the epoch 01.01.0001) certifies that `nextDay`
really is the successor day. -/

/-- A calendar date as year, month, day. -/
structure Date where
  year : Nat
  month : Nat
  day : Nat
deriving DecidableEq, Repr

/-- Gregorian leap-year rule. -/
def isLeap (y : Nat) : Bool :=
  decide ((y % 4 = 0 ∧ y % 100 ≠ 0) ∨ y % 400 = 0)

/-- Number of days of month `m`, given the leap-year flag. -/
def daysInMonthB (leap : Bool) (m : Nat) : Nat :=
  if m = 2 then (if leap then 29 else 28)
  else if m = 4 ∨ m = 6 ∨ m = 9 ∨ m = 11 then 30
  else 31

/-- Number of days of month `m` of year `y`. -/
def daysInMonth (y m : Nat) : Nat := daysInMonthB (isLeap y) m

/-- Model of `d + timedelta(days=1)`: the Gregorian successor day. -/
def nextDay (d : Date) : Date :=
  if d.day < daysInMonth d.year d.month then ⟨d.year, d.month, d.day + 1⟩
  else if d.month < 12 then ⟨d.year, d.month + 1, 1⟩
  else ⟨d.year + 1, 1, 1⟩

/-- The year, month and day fields are in calendar range. -/
abbrev ValidDate (d : Date) : Prop :=
  1 ≤ d.year ∧ 1 ≤ d.month ∧ d.month ≤ 12 ∧
    1 ≤ d.day ∧ d.day ≤ daysInMonth d.year d.month

/-- Number of leap years in `1..y`. -/
def leapCount : Nat → Nat
  | 0 => 0
  | y + 1 => leapCount y + (if isLeap (y + 1) then 1 else 0)

/-- Days strictly before month `m` (months `1..m-1`), given the
leap-year flag. -/
def daysBeforeMonthB (leap : Bool) : Nat → Nat
  | 0 => 0
  | m + 1 =>
    daysBeforeMonthB leap m + (if m = 0 then 0 else daysInMonthB leap m)

/-- Days of year `y` strictly before month `m` (months `1..m-1`). -/
def daysBeforeMonth (y m : Nat) : Nat := daysBeforeMonthB (isLeap y) m

/-- Day number of a date, counting 01.01.0001 as 1. -/
def toOrdinal (d : Date) : Nat :=
  365 * (d.year - 1) + leapCount (d.year - 1) +
    daysBeforeMonth d.year d.month + d.day

/-- Zero-pad a number to two digits (`%d`, `%m`). -/
def pad2 (n : Nat) : String :=
  if n < 10 then "0" ++ toString n else toString n

/-- Model of `strftime("%d.%m.%Y")`. -/
def format_dmY (d : Date) : String :=
  pad2 d.day ++ "." ++ pad2 d.month ++ "." ++ toString d.year

/-- The function `get_target_date` (lines 21–35): it formats the date of the following day. -/
def get_target_date (now : Date) : String :=
  format_dmY (nextDay now)

/-! ## Concrete test data -/

/-- A well-formed feed with all metadata tags, no `info` tag and zero
`item` elements: a valid empty (non-sentinel) result. -/
def emptyFeedRoot : XmlRoot :=
  { date := some (some "13.10.2026"), title := some (some "Курсы валют"),
    generator := some (some "НБРК"),
    link := some (some "https://nationalbank.kz"),
    description := some (some "Официальные курсы валют"),
    copyright := some (some "НБРК"), info := none, items := [] }

/-- The metadata record the parser extracts from `emptyFeedRoot`. -/
def emptyFeedMd : FeedMetadata :=
  { date := some "13.10.2026", title := some "Курсы валют",
    generator := some "НБРК", link := some "https://nationalbank.kz",
    description := some "Официальные курсы валют",
    copyright := some "НБРК", retrieved_at := "T" }

/-- A sentinel feed: the `info` tag carries the "no information available"
marker, while the `description` tag does not. -/
def sentinelRoot : XmlRoot :=
  { date := some (some "13.10.2026"), title := some (some "Курсы валют"),
    generator := some (some "НБРК"),
    link := some (some "https://nationalbank.kz"),
    description := some (some "Официальные курсы валют"),
    copyright := some (some "НБРК"),
    info := some (some "На данную дату информации нет"), items := [] }

/-- A fully valid `<item>` (spec §8, Scenario B, with the `index` tag
absent). -/
def usdItem : XmlItem :=
  { fullname := some (some "Доллар США"), title := some (some "USD"),
    description := some (some "450.25"), quant := some (some "1"),
    index := none, change := some (some "0.5") }

/-- The record parsed from `usdItem`. -/
def usdRec : RateRecord :=
  { fullname := some "Доллар США", code := some "USD",
    rate := mkRat 45025 100, quant := 1,
    index := some "NONE", change := mkRat 5 10 }

/-- An `<item>` whose rate field (`description`) is non-numeric text. -/
def badRateItem : XmlItem :=
  { fullname := some (some "Евро"), title := some (some "EUR"),
    description := some (some "нет данных"), quant := some (some "1"),
    index := none, change := some (some "0.1") }

/-- A feed holding one parsable item and one item with an unparsable
rate. -/
def mixedRoot : XmlRoot :=
  { date := some (some "13.10.2026"), title := some (some "Курсы валют"),
    generator := some (some "НБРК"),
    link := some (some "https://nationalbank.kz"),
    description := some (some "Официальные курсы валют"),
    copyright := some (some "НБРК"), info := none,
    items := [usdItem, badRateItem] }

/-- The same feed with only the parsable item. -/
def goodRoot : XmlRoot :=
  { date := some (some "13.10.2026"), title := some (some "Курсы валют"),
    generator := some (some "НБРК"),
    link := some (some "https://nationalbank.kz"),
    description := some (some "Официальные курсы валют"),
    copyright := some (some "НБРК"), info := none, items := [usdItem] }

/-- An `<item>` with the `quant` tag structurally absent (claim C4 says
it should default to 1). -/
def noQuantItem : XmlItem :=
  { fullname := some (some "Доллар США"), title := some (some "USD"),
    description := some (some "450.25"), quant := none,
    index := none, change := some (some "0.5") }

/-- An `<item>` with the `change` tag structurally absent (claim C4 says
it should default to 0.0). -/
def noChangeItem : XmlItem :=
  { fullname := some (some "Доллар США"), title := some (some "USD"),
    description := some (some "450.25"), quant := some (some "1"),
    index := none, change := none }

/-- A well-formed feed whose `title` tag is absent (all other metadata
tags present, one valid item). -/
def noTitleRoot : XmlRoot :=
  { date := some (some "13.10.2026"), title := none,
    generator := some (some "НБРК"),
    link := some (some "https://nationalbank.kz"),
    description := some (some "Официальные курсы валют"),
    copyright := some (some "НБРК"), info := none, items := [usdItem] }

/-- A well-formed feed whose `date` tag is absent but whose other
metadata tags are present. -/
def noDateRoot : XmlRoot :=
  { date := none, title := some (some "Курсы валют"),
    generator := some (some "НБРК"),
    link := some (some "https://nationalbank.kz"),
    description := some (some "Официальные курсы валют"),
    copyright := some (some "НБРК"), info := none, items := [] }

/-- The metadata extracted from `noDateRoot` when `13.10.2026` was the
requested date: the `date` field falls back to the request. -/
def noDateMd : FeedMetadata :=
  { date := some "13.10.2026", title := some "Курсы валют",
    generator := some "НБРК", link := some "https://nationalbank.kz",
    description := some "Официальные курсы валют",
    copyright := some "НБРК", retrieved_at := "T" }

/-- An `<item>` whose rate text denotes a negative number. -/
def negItem : XmlItem :=
  { fullname := some (some "СДР"), title := some (some "XDR"),
    description := some (some "-1.5"), quant := some (some "1"),
    index := none, change := some (some "0.2") }

/-- The record parsed from `negItem`: its rate is negative. -/
def negRec : RateRecord :=
  { fullname := some "СДР", code := some "XDR",
    rate := mkRat (-15) 10, quant := 1,
    index := some "NONE", change := mkRat 2 10 }

/-- A well-formed feed whose only item carries the negative rate. -/
def negRoot : XmlRoot :=
  { date := some (some "13.10.2026"), title := some (some "Курсы валют"),
    generator := some (some "НБРК"),
    link := some (some "https://nationalbank.kz"),
    description := some (some "Официальные курсы валют"),
    copyright := some (some "НБРК"), info := none, items := [negItem] }

/-! ## Helper lemmas -/

/-- When the item loop completes without an exception, it has produced
exactly one record per item: `parseItems` never drops an element. -/
theorem parseItems_length : ∀ (its : List XmlItem) (l : List RateRecord),
    parseItems its = some l → l.length = its.length := by
  intro its
  induction its with
  | nil =>
    intro l h
    simp only [parseItems, Option.some.injEq] at h
    subst h
    rfl
  | cons it rest ih =>
    intro l h
    simp only [parseItems] at h
    split at h
    · exact absurd h (by simp)
    · split at h
      · exact absurd h (by simp)
      · next rs hrs =>
          cases h
          simp [ih rs hrs]

/-- Every month has at least one day. -/
theorem daysInMonth_pos (y m : Nat) : 1 ≤ daysInMonth y m := by
  unfold daysInMonth daysInMonthB
  split
  all_goals split <;> omega

/-- December has 31 days in every year. -/
theorem daysInMonth_12 (y : Nat) : daysInMonth y 12 = 31 := rfl

/-- A whole year holds 365 days, plus one in a leap year. -/
theorem daysBeforeMonth_13 (y : Nat) :
    daysBeforeMonth y 13 = 365 + (if isLeap y then 1 else 0) := by
  unfold daysBeforeMonth
  cases hL : isLeap y <;> decide

/-- The function `nextDay` advances the day ordinal by exactly one on every valid
date, across month and year boundaries. -/
theorem toOrdinal_nextDay (d : Date) (h : ValidDate d) :
    toOrdinal (nextDay d) = toOrdinal d + 1 := by
  obtain ⟨hy, hm1, hm2, hd1, hd2⟩ := h
  unfold nextDay
  by_cases hlt : d.day < daysInMonth d.year d.month
  · rw [if_pos hlt]
    unfold toOrdinal
    dsimp only
    omega
  · rw [if_neg hlt]
    have hde : d.day = daysInMonth d.year d.month := by omega
    by_cases hm : d.month < 12
    · rw [if_pos hm]
      have hstep : daysBeforeMonth d.year (d.month + 1)
          = daysBeforeMonth d.year d.month + daysInMonth d.year d.month := by
        unfold daysBeforeMonth daysInMonth
        rw [daysBeforeMonthB]
        rw [if_neg (by omega : ¬ d.month = 0)]
      unfold toOrdinal
      dsimp only
      omega
    · rw [if_neg hm]
      have hm12 : d.month = 12 := by omega
      rw [hm12, daysInMonth_12] at hde
      have h13 : daysBeforeMonth d.year 13
          = daysBeforeMonth d.year 12 + 31 := by
        unfold daysBeforeMonth
        cases hL : isLeap d.year <;> decide
      have htot := daysBeforeMonth_13 d.year
      have hb1 : daysBeforeMonth (d.year + 1) 1 = 0 := by
        unfold daysBeforeMonth
        cases hL : isLeap (d.year + 1) <;> decide
      unfold toOrdinal
      dsimp only
      rw [hm12, hb1]
      simp only [Nat.add_sub_cancel]
      obtain ⟨z, hz⟩ : ∃ z, d.year = z + 1 := ⟨d.year - 1, by omega⟩
      rw [hz] at htot h13 ⊢
      simp only [Nat.add_sub_cancel]
      have hlc : leapCount (z + 1)
          = leapCount z + (if isLeap (z + 1) then 1 else 0) := rfl
      cases hL : isLeap (z + 1) <;> simp [hL] at htot hlc <;> omega

/-- The function `nextDay` maps valid dates to valid dates. -/
theorem validDate_nextDay (d : Date) (h : ValidDate d) :
    ValidDate (nextDay d) := by
  obtain ⟨hy, hm1, hm2, hd1, hd2⟩ := h
  unfold nextDay
  by_cases hlt : d.day < daysInMonth d.year d.month
  · rw [if_pos hlt]
    exact ⟨hy, hm1, hm2, Nat.le_add_left 1 d.day, hlt⟩
  · rw [if_neg hlt]
    by_cases hm : d.month < 12
    · rw [if_pos hm]
      exact ⟨hy, Nat.le_add_left 1 d.month, hm, le_refl 1,
        daysInMonth_pos d.year (d.month + 1)⟩
    · rw [if_neg hm]
      exact ⟨Nat.le_add_left 1 d.year, le_refl 1,
        show (1 : Nat) ≤ 12 by omega, le_refl 1,
        daysInMonth_pos (d.year + 1) 1⟩

/-! ## Claim theorems -/

/-- Claim C1, code_bug evidence.  A run that reaches the publish decision
with an *empty* rate sequence does write the snapshot: on a well-formed
feed with zero items (all metadata present, `description` without the
"no information" marker), `fetch_and_parse_rates` yields `(metadata, [])`,
the `if metadata and current_rates is not None` test at line 126 is true
for the empty list, and `save_rates_to_json`'s guard at line 103 does not
fire, so the `json.dump` write is attempted with `rates = []` — contrary
to the claim (and to the source's own comments at lines 129–132). -/
theorem C1_empty_rates_are_written :
    fetch_and_parse_rates (.ok (.wellFormed emptyFeedRoot)) "13.10.2026" "T"
      = (some emptyFeedMd, some []) ∧
    main_run (.ok (.wellFormed emptyFeedRoot)) "13.10.2026" "T"
      = RunOutcome.wrote (emptyFeedMd, []) := by
  constructor <;> decide

/-- Claim C5, code_bug evidence.  On a sentinel feed (`info` text contains
the marker) the parser does return the metadata with an empty rate
sequence, as claimed — but the subsequent run *writes* the empty snapshot
rather than skipping it, because line 126 treats the empty list as
publishable and line 103 looks for the marker in `description`, not in
`info`. -/
theorem C5_sentinel_parses_empty_but_writes :
    fetch_and_parse_rates (.ok (.wellFormed sentinelRoot)) "13.10.2026" "T"
      = (some emptyFeedMd, some []) ∧
    main_run (.ok (.wellFormed sentinelRoot)) "13.10.2026" "T"
      = RunOutcome.wrote (emptyFeedMd, []) := by
  constructor <;> decide

/-- Claim C7, confirmed.  The request timeout bound is 15 seconds, and for
every transport failure (timeout, connection failure, or an error HTTP
status raised by `raise_for_status`) the run aborts: the parser stage
returns `(None, None)` and the main block takes the `else` branch at
line 134 — one failure log line, no snapshot write. -/
theorem C7_transport_failure_aborts :
    request_timeout_seconds = 15 ∧
    ∀ (e : TransportError) (date_str retrieved_at : String),
      fetch_and_parse_rates (.error e) date_str retrieved_at
        = (none, none) ∧
      main_run (.error e) date_str retrieved_at = RunOutcome.failed :=
  ⟨rfl, fun _ _ _ => ⟨rfl, rfl⟩⟩

/-- Claim C10, confirmed.  For every fetch outcome — transport failure,
malformed XML, or any well-formed document — `fetch_and_parse_rates`
returns either `(None, None)` or a metadata record paired with a rates
list: the two components are `None` together or present together. -/
theorem C10_metadata_none_iff_rates_none :
    ∀ (fetched : Except TransportError FetchedContent)
      (date_str retrieved_at : String),
      fetch_and_parse_rates fetched date_str retrieved_at = (none, none) ∨
      ∃ md l, fetch_and_parse_rates fetched date_str retrieved_at
        = (some md, some l) := by
  intro fetched date_str retrieved_at
  unfold fetch_and_parse_rates
  repeat' split
  all_goals first
    | exact Or.inl rfl
    | exact Or.inr ⟨_, _, rfl⟩

/-- Claim C3, counterexample.  A well-formed feed with two items, one of
which has an unparsable rate, does *not* yield a one-record sequence: the
`float()` exception escapes the item loop and the broad `except` turns
the whole parse into `(None, None)` — the claim's per-item skipping does
not happen. -/
theorem C3_counterexample_bad_item_aborts :
    fetch_and_parse_rates (.ok (.wellFormed mixedRoot)) "13.10.2026" "T"
      = (none, none) ∧
    mixedRoot.items.length = 2 ∧ processItem usdItem = some usdRec := by
  refine ⟨by decide, by decide, by decide⟩

/-- Claim C3, amended.  An item whose rate field fails to parse aborts the
entire parse instead of being skipped: whenever
`fetch_and_parse_rates` does return a rate sequence, that sequence is
either the sentinel's empty sequence or contains exactly one record per
feed item — a sequence of length `items − unparsable` with
`0 < unparsable < items` is impossible. -/
theorem C3_amended_no_item_skipping :
    ∀ (root : XmlRoot) (date_str retrieved_at : String)
      (md : FeedMetadata) (l : List RateRecord),
      fetch_and_parse_rates (.ok (.wellFormed root)) date_str retrieved_at
        = (some md, some l) →
      l = [] ∨ l.length = root.items.length := by
  intro root date_str retrieved_at md l h
  simp only [fetch_and_parse_rates] at h
  split at h
  · exact absurd h (by simp)
  · split at h
    · exact absurd h (by simp)
    · split at h
      · simp only [Prod.mk.injEq, Option.some.injEq] at h
        exact Or.inl h.2.symm
      · split at h
        · exact absurd h (by simp)
        · next l₀ hl₀ =>
            simp only [Prod.mk.injEq, Option.some.injEq] at h
            cases h.2
            exact Or.inr (parseItems_length root.items l hl₀)
    · split at h
      · exact absurd h (by simp)
      · next l₀ hl₀ =>
          simp only [Prod.mk.injEq, Option.some.injEq] at h
          cases h.2
          exact Or.inr (parseItems_length root.items l hl₀)

/-- Claim C3, witness for the amended theorem: the feed with the single
valid item yields the one-record sequence, whose length equals the item
count. -/
theorem C3_amended_witness :
    ([usdRec] : List RateRecord) = [] ∨
      ([usdRec] : List RateRecord).length = goodRoot.items.length :=
  C3_amended_no_item_skipping goodRoot "13.10.2026" "T" emptyFeedMd
    [usdRec] (by decide)

/-- Claim C4, counterexample.  An otherwise fully valid item whose `quant`
tag is structurally absent — which the claim says yields a record with
`quant = 1` — produces no record at all (`int(None)` raises, aborting the
parse); the same holds for an absent `change` tag. -/
theorem C4_counterexample_absent_tags_abort :
    processItem noQuantItem = none ∧ processItem noChangeItem = none := by
  refine ⟨by decide, by decide⟩

/-- Claim C4, amended.  Only the `index` field has an absent-tag default
("NONE").  An absent or unparsable `quant` raises and yields no record;
an absent `change` tag raises and yields no record; the 0.0 default for
`change` applies only when the tag is present with empty text. -/
theorem C4_amended_defaults :
    (∀ it : XmlItem, it.quant = none → processItem it = none) ∧
    (∀ (it : XmlItem) (s : String), it.quant = some (some s) →
      parseInt? s = none → processItem it = none) ∧
    (∀ it : XmlItem, it.change = none → processItem it = none) ∧
    (∀ (it : XmlItem) (r : RateRecord), processItem it = some r →
      it.index = none → r.index = some "NONE") ∧
    (∀ (it : XmlItem) (r : RateRecord), processItem it = some r →
      it.change = some none → r.change = 0) := by
  refine ⟨?_, ?_, ?_, ?_, ?_⟩
  · intro it h
    obtain ⟨fn, ti, de, qu, ix, ch⟩ := it
    dsimp only at h
    subst h
    simp only [processItem]
    repeat' split
    all_goals rfl
  · intro it s h hs
    obtain ⟨fn, ti, de, qu, ix, ch⟩ := it
    dsimp only at h
    subst h
    simp only [processItem]
    repeat' split
    all_goals try rfl
    all_goals simp_all
  · intro it h
    obtain ⟨fn, ti, de, qu, ix, ch⟩ := it
    dsimp only at h
    subst h
    simp only [processItem]
    repeat' split
    all_goals rfl
  · intro it r h hix
    obtain ⟨fn, ti, de, qu, ix, ch⟩ := it
    dsimp only at hix
    subst hix
    simp only [processItem] at h
    repeat' split at h
    all_goals first
      | exact Option.noConfusion h
      | (cases h; rfl)
  · intro it r h hch
    obtain ⟨fn, ti, de, qu, ix, ch⟩ := it
    dsimp only at hch
    subst hch
    simp only [processItem] at h
    repeat' split at h
    all_goals first
      | exact Option.noConfusion h
      | (cases h; rfl)

/-- Claim C4, witness for the amended theorem: the absent-`quant` item
yields no record, and the valid item with absent `index` tag gets the
"NONE" default. -/
theorem C4_amended_witness :
    processItem noQuantItem = none ∧ usdRec.index = some "NONE" :=
  ⟨C4_amended_defaults.1 noQuantItem rfl,
   C4_amended_defaults.2.2.2.1 usdItem usdRec (by decide) rfl⟩

/-- Claim C6, counterexample.  A well-formed feed whose `title` tag is
absent does not yield a metadata record with an absent title: the
`.text` access on `None` raises `AttributeError` and the whole parse
returns `(None, None)` — metadata extraction *can* fail. -/
theorem C6_counterexample_absent_title_fails :
    fetch_and_parse_rates (.ok (.wellFormed noTitleRoot)) "13.10.2026" "T"
      = (none, none) := by decide

/-- Claim C6, amended.  Of the six top-level metadata tags, only `date` is
optional: an absent `date` tag falls back to the requested date string,
while an absent `title`, `generator`, `link`, `description` or
`copyright` tag makes the whole parse fail with `(None, None)`. -/
theorem C6_amended_metadata_extraction :
    (∀ (root : XmlRoot) (d rv : String), root.title = none →
      fetch_and_parse_rates (.ok (.wellFormed root)) d rv = (none, none)) ∧
    (∀ (root : XmlRoot) (d rv : String), root.generator = none →
      fetch_and_parse_rates (.ok (.wellFormed root)) d rv = (none, none)) ∧
    (∀ (root : XmlRoot) (d rv : String), root.link = none →
      fetch_and_parse_rates (.ok (.wellFormed root)) d rv = (none, none)) ∧
    (∀ (root : XmlRoot) (d rv : String), root.description = none →
      fetch_and_parse_rates (.ok (.wellFormed root)) d rv = (none, none)) ∧
    (∀ (root : XmlRoot) (d rv : String), root.copyright = none →
      fetch_and_parse_rates (.ok (.wellFormed root)) d rv = (none, none)) ∧
    (∀ (root : XmlRoot) (d rv : String) (md : FeedMetadata),
      buildMetadata root d rv = some md → root.date = none →
      md.date = some d) := by
  refine ⟨?_, ?_, ?_, ?_, ?_, ?_⟩
  · intro root d rv h
    obtain ⟨da, ti, ge, li, de, co, inf, its⟩ := root
    dsimp only at h
    subst h
    rfl
  · intro root d rv h
    obtain ⟨da, ti, ge, li, de, co, inf, its⟩ := root
    dsimp only at h
    subst h
    cases ti <;> rfl
  · intro root d rv h
    obtain ⟨da, ti, ge, li, de, co, inf, its⟩ := root
    dsimp only at h
    subst h
    cases ti <;> cases ge <;> rfl
  · intro root d rv h
    obtain ⟨da, ti, ge, li, de, co, inf, its⟩ := root
    dsimp only at h
    subst h
    cases ti <;> cases ge <;> cases li <;> rfl
  · intro root d rv h
    obtain ⟨da, ti, ge, li, de, co, inf, its⟩ := root
    dsimp only at h
    subst h
    cases ti <;> cases ge <;> cases li <;> cases de <;> rfl
  · intro root d rv md h hd
    obtain ⟨da, ti, ge, li, de, co, inf, its⟩ := root
    dsimp only at h hd
    subst hd
    cases ti <;> cases ge <;> cases li <;> cases de <;> cases co <;>
      simp only [buildMetadata] at h
    all_goals first
      | exact Option.noConfusion h
      | (cases h; rfl)

/-- Claim C6, witness for the amended theorem: the absent-`title` feed
fails whole, and the absent-`date` feed falls back to the requested date
string. -/
theorem C6_amended_witness :
    fetch_and_parse_rates (.ok (.wellFormed noTitleRoot)) "13.10.2026" "T"
      = (none, none) ∧
    noDateMd.date = some "13.10.2026" :=
  ⟨C6_amended_metadata_extraction.1 noTitleRoot "13.10.2026" "T" rfl,
   C6_amended_metadata_extraction.2.2.2.2.2 noDateRoot "13.10.2026" "T"
     noDateMd (by decide) rfl⟩

/-- Claim C8, counterexample.  A well-formed feed whose single item has
the rate text `"-1.5"` parses successfully into a one-record sequence
whose record has a negative rate: the `rate >= 0` invariant does not
hold for the returned sequence. -/
theorem C8_counterexample_negative_rate :
    fetch_and_parse_rates (.ok (.wellFormed negRoot)) "13.10.2026" "T"
      = (some emptyFeedMd, some [negRec]) ∧ negRec.rate < 0 := by
  refine ⟨by decide, by decide⟩

/-- Claim C8, amended.  The parser performs no sign check at all: every
record produced from an item carries exactly the decimal value parsed
from that item's rate field (`description` text), whatever its sign, so
`rate >= 0` holds only when the feed's own rate texts are
non-negative. -/
theorem C8_amended_rate_is_unchecked_parse :
    ∀ (it : XmlItem) (r : RateRecord), processItem it = some r →
      ∃ s, it.description = some (some s) ∧ parseFloat? s = some r.rate := by
  intro it r h
  obtain ⟨fn, ti, de, qu, ix, ch⟩ := it
  simp only [processItem] at h
  repeat' split at h
  all_goals first
    | exact Option.noConfusion h
    | (cases h
       refine ⟨_, rfl, ?_⟩
       assumption)

/-- Claim C8, witness for the amended theorem: applied to the
negative-rate item. -/
theorem C8_amended_witness :
    ∃ s, negItem.description = some (some s) ∧
      parseFloat? s = some negRec.rate :=
  C8_amended_rate_is_unchecked_parse negItem negRec (by decide)

/-- Claim C2, counterexample.  At the invocation instant 12.10.2026 the
date selector returns `"13.10.2026"`, not the current calendar date
`"12.10.2026"`: the source adds `timedelta(days=1)` before formatting. -/
theorem C2_counterexample_not_current_date :
    get_target_date ⟨2026, 10, 12⟩ = "13.10.2026" ∧
    format_dmY ⟨2026, 10, 12⟩ = "12.10.2026" ∧
    get_target_date ⟨2026, 10, 12⟩ ≠ format_dmY ⟨2026, 10, 12⟩ := by
  refine ⟨by decide, by decide, by decide⟩

/-- Claim C2, amended.  For every valid invocation date, the selector
returns the **following** calendar date — the Gregorian successor day,
whose ordinal is exactly one greater — formatted as zero-padded
`DD.MM.YYYY`. -/
theorem C2_amended_selects_following_day :
    ∀ now : Date, ValidDate now →
      get_target_date now = format_dmY (nextDay now) ∧
      toOrdinal (nextDay now) = toOrdinal now + 1 ∧
      ValidDate (nextDay now) :=
  fun now h => ⟨rfl, toOrdinal_nextDay now h, validDate_nextDay now h⟩

/-- Claim C2, witness for the amended theorem: instantiated at
12.10.2026, a valid date. -/
theorem C2_amended_witness :
    get_target_date ⟨2026, 10, 12⟩ = format_dmY (nextDay ⟨2026, 10, 12⟩) ∧
    toOrdinal (nextDay ⟨2026, 10, 12⟩) = toOrdinal ⟨2026, 10, 12⟩ + 1 ∧
    ValidDate (nextDay ⟨2026, 10, 12⟩) :=
  C2_amended_selects_following_day ⟨2026, 10, 12⟩ (by decide)

end RateWatcher
